import Mathlib

/-
  Verification development for the cosplay_angola_back repository.

  The definitions below are a shallow embedding of the authentication /
  authorization lifecycle and of the event serializer pipeline of the
  repository: JWT refresh-token rotation and blacklisting (configured in
  src/config/settings.py, SIMPLE_JWT), the logout view
  (src/apps/accounts/views.py, LogoutView), the registration serializers
  (src/apps/accounts/serializers.py), the permission classes
  (src/apps/accounts/permissions.py), the event create/update serializer
  (src/apps/events/serializers.py) and the event pagination
  (src/apps/events/pagination.py).

  Times are modelled as natural / integer numbers of seconds, persisted
  tables as Lean lists, and the external image-hosting call as an
  explicit function argument returning an Except value.
-/

namespace CosplayAngola

/-! ## Token service

Modelled from the spec: the token issue/verify/refresh/revoke operations
live in the third-party simplejwt library, which is not part of the
repository sources; only their configuration (src/config/settings.py,
SIMPLE_JWT: ACCESS_TOKEN_LIFETIME 15 minutes, REFRESH_TOKEN_LIFETIME 7
days, ROTATE_REFRESH_TOKENS, BLACKLIST_AFTER_ROTATION, TOKEN_TYPE_CLAIM)
and their call sites (LogoutView, the refresh endpoint) are in src/.
The model follows the spec's Token Service description: a token carries a
subject, a token-type claim, an expiry and a unique jti; revocation
records the jti in a blacklist; refresh verifies the token (type must be
refresh, not expired, jti not blacklisted), blacklists its jti and issues
a brand-new pair. -/

structure Token where
  jti : Nat
  userId : Nat
  tokenType : String
  expiresAt : Nat
  deriving DecidableEq, Repr

/-- ACCESS_TOKEN_LIFETIME from src/config/settings.py: 15 minutes. -/
def ACCESS_TOKEN_LIFETIME : Nat := 15 * 60

/-- REFRESH_TOKEN_LIFETIME from src/config/settings.py: 7 days. -/
def REFRESH_TOKEN_LIFETIME : Nat := 7 * 24 * 60 * 60

structure TokenPair where
  access : Token
  refresh : Token
  deriving DecidableEq, Repr

/-- Server-side token state: the set of blacklisted jtis (the
token_blacklist app's table) and a counter supplying fresh jtis. -/
structure TokenState where
  blacklist : List Nat
  nextJti : Nat
  deriving DecidableEq, Repr

/-- Modelled from the spec: issue(accountId) creates an access+refresh
claim-set pair, each with a fresh jti, with the lifetimes configured in
src/config/settings.py. -/
def issuePair (st : TokenState) (userId now : Nat) : TokenPair × TokenState :=
  let accessTok : Token :=
    { jti := st.nextJti, userId := userId, tokenType := "access",
      expiresAt := now + ACCESS_TOKEN_LIFETIME }
  let refreshTok : Token :=
    { jti := st.nextJti + 1, userId := userId, tokenType := "refresh",
      expiresAt := now + REFRESH_TOKEN_LIFETIME }
  ({ access := accessTok, refresh := refreshTok },
   { st with nextJti := st.nextJti + 2 })

/-- The distinct ways verification of a refresh token can fail.  All of
them surface to HTTP clients as the same Unauthorized error. -/
inductive TokenFailure where
  | wrongType
  | expired
  | blacklisted
  deriving DecidableEq, Repr

/-- Modelled from the spec: verify checks the token-type claim, the
expiry, and that the jti is not blacklisted (simplejwt BlacklistMixin
verification, enabled by the token_blacklist app in INSTALLED_APPS). -/
def verifyRefresh (st : TokenState) (now : Nat) (tok : Token) :
    Option TokenFailure :=
  if tok.tokenType ≠ "refresh" then some .wrongType
  else if tok.expiresAt ≤ now then some .expired
  else if tok.jti ∈ st.blacklist then some .blacklisted
  else none

/-- Modelled from the spec: refresh(refreshToken) verifies the refresh
token, blacklists its jti (rotation-then-revoke is mandatory because
ROTATE_REFRESH_TOKENS and BLACKLIST_AFTER_ROTATION are both set in
src/config/settings.py), and issues a brand-new pair for the same
account. -/
def refreshOp (st : TokenState) (now : Nat) (tok : Token) :
    Except TokenFailure (TokenPair × TokenState) :=
  match verifyRefresh st now tok with
  | some e => .error e
  | none =>
    let st1 : TokenState := { st with blacklist := tok.jti :: st.blacklist }
    .ok (issuePair st1 tok.userId now)

/-- Modelled from the spec: revoke(refreshToken) verifies the token and
inserts its jti into the blacklist; used by logout
(RefreshToken(refresh_token) followed by token.blacklist() in
src/apps/accounts/views.py). -/
def revokeOp (st : TokenState) (now : Nat) (tok : Token) :
    Except TokenFailure TokenState :=
  match verifyRefresh st now tok with
  | some e => .error e
  | none => .ok { st with blacklist := tok.jti :: st.blacklist }

/-- The refresh endpoint maps any token failure to HTTP 401. -/
def refreshStatusCode (st : TokenState) (now : Nat) (tok : Token) : Nat :=
  match refreshOp st now tok with
  | .ok _ => 200
  | .error _ => 401

/-! ## Logout view (src/apps/accounts/views.py, LogoutView.post) -/

structure HttpReply where
  statusCode : Nat
  bodyKey : String
  bodyMessage : String
  deriving DecidableEq, Repr

/-- The single generic failure response of LogoutView.post: every
exception in the try block is caught and collapsed to this 400. -/
def logoutFailureReply : HttpReply :=
  { statusCode := 400, bodyKey := "error",
    bodyMessage := "Token inválido ou já utilizado." }

/-- The 205 success response of LogoutView.post. -/
def logoutSuccessReply : HttpReply :=
  { statusCode := 205, bodyKey := "message",
    bodyMessage := "Logout realizado com sucesso." }

/-- LogoutView.post from src/apps/accounts/views.py: reads the refresh
field from the body (a missing field raises KeyError), parses it as a
refresh token (RefreshToken(refresh_token) verifies signature, expiry,
type and blacklist), blacklists it, and returns 205; every failure is
caught by the catch-all except and becomes the one generic 400.
The string parsing and signature check of the third-party library are
abstracted as the parse argument. -/
def logoutPost (st : TokenState) (now : Nat) (parse : String → Option Token)
    (refreshField : Option String) : HttpReply × TokenState :=
  match refreshField with
  | none => (logoutFailureReply, st)
  | some s =>
    match parse s with
    | none => (logoutFailureReply, st)
    | some tok =>
      match revokeOp st now tok with
      | .ok st2 => (logoutSuccessReply, st2)
      | .error _ => (logoutFailureReply, st)

/-! ## Registration (src/apps/accounts/serializers.py, RegisterSerializer
and UserSerializer; src/apps/accounts/views.py, RegisterView.create)

The DRF run_validation pipeline first runs every field-level validator,
collecting the errors of all fields into one field-to-messages map and
raising it if non-empty, and only then calls the serializer-level
validate method, which performs the password == password2 check. -/

abbrev FieldErrors := List (String × String)

structure RegisterPayload where
  username : String
  email : String
  password : String
  password2 : String
  firstName : String
  lastName : String
  deriving DecidableEq, Repr

/-- Field-level validation of RegisterSerializer: the model-derived
UniqueValidator on username, the explicit UniqueValidator on email, and
validate_password on password.  The Django strength validators
(MinimumLength, CommonPassword, NumericPassword, UserAttributeSimilarity,
configured in src/config/settings.py) are third-party code and are
abstracted as the passwordMessages argument, which returns the list of
strength-error messages for the payload. -/
def registerFieldErrors (existingUsernames existingEmails : List String)
    (passwordMessages : RegisterPayload → List String)
    (p : RegisterPayload) : FieldErrors :=
  (if p.username ∈ existingUsernames then
    [("username", "A user with that username already exists.")] else [])
  ++ (if p.email ∈ existingEmails then
    [("email", "This field must be unique.")] else [])
  ++ (passwordMessages p).map (fun m => ("password", m))

/-- RegisterSerializer.run_validation: field-level errors are collected
across all fields and raised together; only when none occurred does the
cross-field validate method run, raising the password-mismatch error
keyed on password (src/apps/accounts/serializers.py lines 50-56). -/
def registerRunValidation (existingUsernames existingEmails : List String)
    (passwordMessages : RegisterPayload → List String)
    (p : RegisterPayload) : Except FieldErrors RegisterPayload :=
  let errs := registerFieldErrors existingUsernames existingEmails
    passwordMessages p
  if errs ≠ [] then .error errs
  else if p.password ≠ p.password2 then
    .error [("password", "Os campos de senha não coincidem.")]
  else .ok p

/-- A stored account row: User.objects.create_user stores the salted
hash of the password, never the plaintext.  The hashing function of the
framework is abstracted as an argument to createUser. -/
structure StoredUser where
  id : Nat
  username : String
  email : String
  firstName : String
  lastName : String
  passwordHash : String
  isSuperuser : Bool
  isStaff : Bool
  deriving DecidableEq, Repr

inductive JsonValue where
  | s (v : String)
  | n (v : Nat)
  | b (v : Bool)
  deriving DecidableEq, Repr

/-- UserSerializer from src/apps/accounts/serializers.py: the public
projection of an account, exactly the fields id, username, email,
first_name, last_name, is_superuser, is_staff. -/
def userSerializerData (u : StoredUser) : List (String × JsonValue) :=
  [("id", .n u.id),
   ("username", .s u.username),
   ("email", .s u.email),
   ("first_name", .s u.firstName),
   ("last_name", .s u.lastName),
   ("is_superuser", .b u.isSuperuser),
   ("is_staff", .b u.isStaff)]

/-- RegisterSerializer.create: drops password2 and calls
User.objects.create_user, which stores hash(password) and creates a
regular (non-staff, non-superuser) account. -/
def createUser (hash : String → String) (id : Nat) (p : RegisterPayload) :
    StoredUser :=
  { id := id, username := p.username, email := p.email,
    firstName := p.firstName, lastName := p.lastName,
    passwordHash := hash p.password,
    isSuperuser := false, isStaff := false }

structure RegisterReply where
  statusCode : Nat
  userData : List (String × JsonValue)
  message : String
  errors : FieldErrors
  deriving DecidableEq, Repr

/-- RegisterView.create from src/apps/accounts/views.py: validates the
payload (raising the collected field errors as a 400), saves the user
and returns 201 with the UserSerializer projection plus the success
message (the source concatenates two adjacent string literals without a
space, hence "loginpara"). -/
def registerViewCreate (hash : String → String)
    (existingUsernames existingEmails : List String)
    (passwordMessages : RegisterPayload → List String)
    (db : List StoredUser) (p : RegisterPayload) :
    RegisterReply × List StoredUser :=
  match registerRunValidation existingUsernames existingEmails
      passwordMessages p with
  | .error errs =>
    ({ statusCode := 400, userData := [], message := "", errors := errs }, db)
  | .ok q =>
    let u := createUser hash db.length q
    ({ statusCode := 201, userData := userSerializerData u,
       message := "Usuário registrado com sucesso! Faça loginpara obter tokens.",
       errors := [] }, db ++ [u])

/-! ## Permission classes (src/apps/accounts/permissions.py) -/

inductive HttpMethod where
  | GET
  | HEAD
  | OPTIONS
  | POST
  | PUT
  | PATCH
  | DELETE
  deriving DecidableEq, Repr

/-- rest_framework.permissions.SAFE_METHODS. -/
def HttpMethod.isSafeMethod : HttpMethod → Bool
  | .GET => true
  | .HEAD => true
  | .OPTIONS => true
  | _ => false

/-- The resolved request.user: none models a missing user object, some u
models a user object (DRF sets an AnonymousUser, whose isAuthenticated
is false, when no valid credential is presented). -/
structure RequestUser where
  isAuthenticated : Bool
  isSuperuser : Bool
  deriving DecidableEq, Repr

/-- IsSuperUserOrReadOnly.has_permission from
src/apps/accounts/permissions.py lines 74-82: safe methods are allowed
for everyone; other methods require request.user to be truthy,
authenticated and a superuser. -/
def isSuperUserOrReadOnly (m : HttpMethod) (user : Option RequestUser) :
    Bool :=
  if m.isSafeMethod then true
  else
    match user with
    | none => false
    | some u => u.isAuthenticated && u.isSuperuser

def requestIsAuthenticated (user : Option RequestUser) : Bool :=
  match user with
  | none => false
  | some u => u.isAuthenticated

/-- An object checked by IsOwnerOrSuperUser: its optional user, owner and
author associations.  A missing attribute and a null foreign key both
yield none, matching both getattr(obj, name, None) returning None and
Python's or-chain skipping falsy values. -/
structure OwnedObject where
  user : Option Nat
  owner : Option Nat
  author : Option Nat
  deriving DecidableEq, Repr

/-- An authenticated actor performing an object-level request. -/
structure ActorUser where
  id : Nat
  isSuperuser : Bool
  deriving DecidableEq, Repr

/-- The owner resolution of IsOwnerOrSuperUser.has_object_permission:
getattr(obj, "user", None) or getattr(obj, "owner", None) or
getattr(obj, "author", None). -/
def resolveOwner (obj : OwnedObject) : Option Nat :=
  (obj.user.orElse fun _ => obj.owner).orElse fun _ => obj.author

/-- IsOwnerOrSuperUser.has_object_permission from
src/apps/accounts/permissions.py lines 96-109: superusers may do
anything; otherwise access is granted exactly when the resolved owner
equals the requesting user (None == user is False in Python, modelled by
comparing an Option against some actor.id).  The embedding is a total
function: the source never raises. -/
def isOwnerOrSuperUser (actor : ActorUser) (obj : OwnedObject) : Bool :=
  if actor.isSuperuser then true
  else resolveOwner obj == some actor.id

/-! ## Event records and the create/update serializer
(src/apps/events/models.py, Evento; src/apps/events/serializers.py,
EventoCreateUpdateSerializer)

Timestamps are modelled as integer seconds; data_fim, local and
imagem_destaque are nullable in the model.  The id (a UUID in the
source) is modelled as a natural number. -/

structure Evento where
  id : Nat
  titulo : String
  slug : String
  dataInicio : Int
  dataFim : Option Int
  localName : Option String
  categoriaId : Nat
  statusName : String
  imagemDestaque : Option String
  deriving DecidableEq, Repr

/-- The validated writable attributes of EventoCreateUpdateSerializer
(titulo, data_inicio, data_fim, local, categoria_id, status,
imagem_destaque); the imagem upload file is handled separately. -/
structure EventoAttrs where
  titulo : String
  dataInicio : Int
  dataFim : Option Int
  localName : Option String
  categoriaId : Nat
  statusName : String
  imagemDestaque : Option String
  deriving DecidableEq, Repr

/-- Python timedelta.days is floor division of the delta by one day. -/
def SECONDS_PER_DAY : Int := 86400

/-- EventoCreateUpdateSerializer.validate_data_inicio: on creation only
(self.instance is None), a start date in the past is rejected.  This is
a field-level validator, run by DRF during to_internal_value, before the
cross-field validate method. -/
def validateDataInicio (isCreate : Bool) (now : Int) (value : Int) :
    FieldErrors :=
  if isCreate ∧ value < now then
    [("data_inicio", "Data de início não pode ser no passado.")]
  else []

/-- EventoCreateUpdateSerializer.validate (src/apps/events/serializers.py
lines 267-286): when both dates are present, data_fim before data_inicio
is rejected, then a duration above 365 days is rejected; each raises
immediately, keyed on data_fim. -/
def eventoCrossValidate (attrs : EventoAttrs) : FieldErrors :=
  match attrs.dataFim with
  | none => []
  | some f =>
    if f < attrs.dataInicio then
      [("data_fim", "Data de término deve ser posterior à data de início.")]
    else if (f - attrs.dataInicio).fdiv SECONDS_PER_DAY > 365 then
      [("data_fim", "Evento não pode durar mais de 1 ano.")]
    else []

/-- The DRF run_validation order for the event serializer: field-level
errors first (raised on their own if any), then the cross-field validate
method. -/
def eventoRunValidation (isCreate : Bool) (now : Int) (attrs : EventoAttrs) :
    Except FieldErrors EventoAttrs :=
  if validateDataInicio isCreate now attrs.dataInicio ≠ [] then
    .error (validateDataInicio isCreate now attrs.dataInicio)
  else if eventoCrossValidate attrs ≠ [] then
    .error (eventoCrossValidate attrs)
  else .ok attrs

def eventoFromAttrs (id : Nat) (slug : String) (attrs : EventoAttrs) :
    Evento :=
  { id := id, titulo := attrs.titulo, slug := slug,
    dataInicio := attrs.dataInicio, dataFim := attrs.dataFim,
    localName := attrs.localName, categoriaId := attrs.categoriaId,
    statusName := attrs.statusName, imagemDestaque := attrs.imagemDestaque }

/-- The message raised on an upload failure, embedding the upstream
error text (an f-string in the source). -/
def uploadErrorMessage (e : String) : String :=
  "Erro ao fazer upload da imagem: " ++ e

/-- EventoCreateUpdateSerializer.create (src/apps/events/serializers.py
lines 288-316): pop the imagem file, create the event, and if a file was
given upload it to the image host (the external call is the upload
argument, taking the file and the folder); on success store the returned
secure url on the event; on any upload failure delete the just-created
event and raise a ValidationError keyed imagem.  The slug generation of
the autoslug library is abstracted as the slugify argument, and the
fresh UUID as the position in the table. -/
def eventoSerializerCreate (upload : String → String → Except String String)
    (slugify : String → String) (db : List Evento)
    (attrs : EventoAttrs) (imagemFile : Option String) :
    Except FieldErrors Evento × List Evento :=
  let slug := slugify attrs.titulo
  let evento := eventoFromAttrs db.length slug attrs
  match imagemFile with
  | none => (.ok evento, db ++ [evento])
  | some f =>
    match upload f ("cosplay_angola/eventos/" ++ slug) with
    | .ok url =>
      let evento2 := { evento with imagemDestaque := some url }
      (.ok evento2, db ++ [evento2])
    | .error e => (.error [("imagem", uploadErrorMessage e)], db)

/-- The create endpoint: serializer.is_valid(raise_exception=True) then
serializer.save(); a validation failure leaves the table untouched. -/
def eventoCreateFlow (upload : String → String → Except String String)
    (slugify : String → String) (now : Int) (db : List Evento)
    (attrs : EventoAttrs) (imagemFile : Option String) :
    Except FieldErrors Evento × List Evento :=
  match eventoRunValidation true now attrs with
  | .error errs => (.error errs, db)
  | .ok a => eventoSerializerCreate upload slugify db a imagemFile

/-- super().update applied by EventoCreateUpdateSerializer.update: every
validated attribute is written onto the instance and the instance is
saved; id and slug are untouched (slug is not a writable field). -/
def applyAttrs (ev : Evento) (attrs : EventoAttrs) : Evento :=
  { ev with
    titulo := attrs.titulo
    dataInicio := attrs.dataInicio
    dataFim := attrs.dataFim
    localName := attrs.localName
    categoriaId := attrs.categoriaId
    statusName := attrs.statusName
    imagemDestaque := attrs.imagemDestaque }

/-- Persisting a saved instance: the row with the same id is replaced. -/
def replaceEvento (db : List Evento) (ev : Evento) : List Evento :=
  db.map fun e => if e.id = ev.id then ev else e

/-- EventoCreateUpdateSerializer.update (src/apps/events/serializers.py
lines 318-357): pop the imagem file, save all other field changes via
super().update, and only then attempt the upload when a new file was
given; on upload success store the new url (and best-effort delete the
old hosted image, an external side effect not modelled); on upload
failure raise a ValidationError keyed imagem WITHOUT deleting or
restoring anything - the field changes already saved stay persisted. -/
def eventoSerializerUpdate (upload : String → String → Except String String)
    (db : List Evento) (inst : Evento) (attrs : EventoAttrs)
    (imagemFile : Option String) :
    Except FieldErrors Evento × List Evento :=
  let evento := applyAttrs inst attrs
  let db1 := replaceEvento db evento
  match imagemFile with
  | none => (.ok evento, db1)
  | some f =>
    match upload f ("cosplay_angola/eventos/" ++ evento.slug) with
    | .ok url =>
      let evento2 := { evento with imagemDestaque := some url }
      (.ok evento2, replaceEvento db1 evento2)
    | .error e => (.error [("imagem", uploadErrorMessage e)], db1)

/-! ## Viewset dispatch (src/apps/events/viewsets.py, EventoViewSet with
permission_classes IsSuperUserOrReadOnly)

DRF checks permissions before invoking the handler; a denied request is
answered 401 when no authenticated credential was presented and 403
otherwise, and the handler (hence any mutation) never runs. -/

def eventoDispatch (m : HttpMethod) (user : Option RequestUser)
    (db : List Evento) (handler : List Evento → Nat × List Evento) :
    Nat × List Evento :=
  if isSuperUserOrReadOnly m user then handler db
  else ((if requestIsAuthenticated user then 403 else 401), db)

/-- The list action: answers 200 and mutates nothing. -/
def eventoListHandler (db : List Evento) : Nat × List Evento := (200, db)

/-! ## Pagination (src/apps/events/pagination.py, EventoPagination) -/

/-- EventoPagination.get_page_size: the page_size query parameter
(none models absent or unparsable, and DRF rejects 0 because the
parameter is parsed strictly positive), cut off at max_page_size 100,
defaulting to page_size 10. -/
def getPageSize (param : Option Nat) : Nat :=
  match param with
  | none => 10
  | some n => if n = 0 then 10 else min n 100

/-- django Paginator.num_pages with orphans 0 and allow_empty_first_page:
ceil(max(1, count) / per_page). -/
def numPages (count per : Nat) : Nat :=
  (max 1 count + per - 1) / per

/-- Modelled from the spec: the ceiling ceil(N/P) named by the
pagination law, for comparison with the code's num_pages. -/
def specCeil (n p : Nat) : Nat := (n + p - 1) / p

structure PageReply (α : Type) where
  count : Nat
  totalPages : Nat
  currentPage : Nat
  pageSize : Nat
  nextLink : Option Nat
  previousLink : Option Nat
  results : List α
  deriving DecidableEq, Repr

/-- EventoPagination.get_paginated_response on top of django's
Paginator: page numbers run from 1 to num_pages (anything else is an
invalid page, answered 404, modelled as none); page k holds the slice
[(k-1)*per, k*per) of the filtered list; the body carries count,
total_pages, current_page, page_size and the next/previous links
(modelled by the adjacent page numbers they point to). -/
def paginate {α : Type} (xs : List α) (pageNum : Nat) (param : Option Nat) :
    Option (PageReply α) :=
  let per := getPageSize param
  let n := numPages xs.length per
  if pageNum = 0 ∨ n < pageNum then none
  else some
    { count := xs.length, totalPages := n, currentPage := pageNum,
      pageSize := per,
      nextLink := if pageNum < n then some (pageNum + 1) else none,
      previousLink := if 1 < pageNum then some (pageNum - 1) else none,
      results := (xs.drop ((pageNum - 1) * per)).take per }

/-- All pages of a list at a given page size, in order. -/
def pageChunks {α : Type} (xs : List α) (per : Nat) : List (List α) :=
  (List.range (numPages xs.length per)).map fun k => (xs.drop (k * per)).take per

/-! ## Theorems -/

/-- A refresh attempt with a token whose jti is already blacklisted is
answered 401, whatever the current time. -/
lemma refreshStatusCode_of_mem_blacklist (st : TokenState) (now : Nat)
    (tok : Token) (h : tok.jti ∈ st.blacklist) :
    refreshStatusCode st now tok = 401 := by
  unfold refreshStatusCode refreshOp verifyRefresh
  by_cases h1 : tok.tokenType = "refresh" <;>
    by_cases h2 : tok.expiresAt ≤ now <;>
      simp [h1, h2, h]

/-- C1: the first refresh call with a fresh, unexpired, non-blacklisted
refresh token succeeds and returns a new access/refresh pair, and any
later refresh call with that same token fails with Unauthorized (401),
both when the token was consumed by the successful refresh (rotation
blacklists its jti) and when it was revoked by logout. -/
theorem refresh_token_single_use
    (st : TokenState) (tok : Token) (now now2 now3 : Nat)
    (htype : tok.tokenType = "refresh")
    (hexp : now < tok.expiresAt)
    (hfresh : tok.jti ∉ st.blacklist) :
    (∃ pair st1, refreshOp st now tok = .ok (pair, st1)
      ∧ pair.access.tokenType = "access"
      ∧ pair.refresh.tokenType = "refresh") ∧
    (∀ pair st1, refreshOp st now tok = .ok (pair, st1) →
      refreshStatusCode st1 now2 tok = 401) ∧
    (∃ st2, revokeOp st now tok = .ok st2) ∧
    (∀ st2, revokeOp st now tok = .ok st2 →
      refreshStatusCode st2 now3 tok = 401) := by
  have hv : verifyRefresh st now tok = none := by
    unfold verifyRefresh
    simp [htype, Nat.not_le.mpr hexp, hfresh]
  have hok : refreshOp st now tok
      = .ok (issuePair { st with blacklist := tok.jti :: st.blacklist }
              tok.userId now) := by
    unfold refreshOp
    rw [hv]
  have hrev : revokeOp st now tok
      = .ok { st with blacklist := tok.jti :: st.blacklist } := by
    unfold revokeOp
    rw [hv]
  refine ⟨⟨_, _, hok, rfl, rfl⟩, ?_, ⟨_, hrev⟩, ?_⟩
  · intro pair st1 h
    rw [hok] at h
    injection h with h2
    have hst1 : st1 =
        (issuePair { st with blacklist := tok.jti :: st.blacklist }
          tok.userId now).2 :=
      (congrArg Prod.snd h2).symm
    subst hst1
    apply refreshStatusCode_of_mem_blacklist
    simp [issuePair]
  · intro st2 h
    rw [hrev] at h
    injection h with h2
    subst h2
    apply refreshStatusCode_of_mem_blacklist
    simp

/-- Witness for C1 at a concrete state and token. -/
theorem refresh_token_single_use_witness :
    (∃ pair st1,
        refreshOp { blacklist := [], nextJti := 0 } 0
            { jti := 5, userId := 1, tokenType := "refresh", expiresAt := 100 }
          = .ok (pair, st1)
      ∧ pair.access.tokenType = "access"
      ∧ pair.refresh.tokenType = "refresh") ∧
    (∀ pair st1,
        refreshOp { blacklist := [], nextJti := 0 } 0
            { jti := 5, userId := 1, tokenType := "refresh", expiresAt := 100 }
          = .ok (pair, st1) →
      refreshStatusCode st1 7
          { jti := 5, userId := 1, tokenType := "refresh", expiresAt := 100 }
        = 401) ∧
    (∃ st2, revokeOp { blacklist := [], nextJti := 0 } 0
            { jti := 5, userId := 1, tokenType := "refresh", expiresAt := 100 }
          = .ok st2) ∧
    (∀ st2, revokeOp { blacklist := [], nextJti := 0 } 0
            { jti := 5, userId := 1, tokenType := "refresh", expiresAt := 100 }
          = .ok st2 →
      refreshStatusCode st2 7
          { jti := 5, userId := 1, tokenType := "refresh", expiresAt := 100 }
        = 401) :=
  refresh_token_single_use
    { blacklist := [], nextJti := 0 }
    { jti := 5, userId := 1, tokenType := "refresh", expiresAt := 100 }
    0 7 7 rfl (by decide) (by decide)

/-- C2: every logout request by an authenticated actor is answered as
follows.  If blacklisting fails for any reason - missing refresh field,
unparsable token, or any verification failure (wrong token type,
expired, already blacklisted jti) - the response is the one generic 400
reply, identical across all failure shapes (so it does not reveal which
check failed), with the state unchanged; otherwise (the token parses
and verifies) the response is necessarily the 205 success reply and the
token's jti is added to the blacklist. -/
theorem logout_failure_is_generic
    (st : TokenState) (now : Nat) (parse : String → Option Token)
    (refreshField : Option String) :
    logoutPost st now parse none = (logoutFailureReply, st) ∧
    (∀ s, refreshField = some s → parse s = none →
      logoutPost st now parse refreshField = (logoutFailureReply, st)) ∧
    (∀ s tok e, refreshField = some s → parse s = some tok →
      verifyRefresh st now tok = some e →
      logoutPost st now parse refreshField = (logoutFailureReply, st)) ∧
    (∀ s tok, refreshField = some s → parse s = some tok →
      verifyRefresh st now tok = none →
      logoutPost st now parse refreshField
        = (logoutSuccessReply, { st with blacklist := tok.jti :: st.blacklist })
      ∧ tok.jti
        ∈ ({ st with blacklist := tok.jti :: st.blacklist } : TokenState).blacklist) := by
  refine ⟨rfl, ?_, ?_, ?_⟩
  · intro s hs hp
    subst hs
    simp [logoutPost, hp]
  · intro s tok e hs hp hv
    subst hs
    simp [logoutPost, hp, revokeOp, hv]
  · intro s tok hs hp hv
    subst hs
    refine ⟨?_, List.mem_cons_self _ _⟩
    simp [logoutPost, hp, revokeOp, hv]

/-- Witness for C2: a concrete fresh refresh token is logged out with
205 and its jti lands in the blacklist; an immediate second logout with
the very same token is answered with the generic 400 and changes
nothing. -/
theorem logout_failure_is_generic_witness :
    logoutPost { blacklist := [], nextJti := 0 } 0
        (fun s => if s = "tok"
          then some { jti := 5, userId := 1, tokenType := "refresh",
                      expiresAt := 100 }
          else none)
        (some "tok")
      = (logoutSuccessReply, { blacklist := [5], nextJti := 0 }) ∧
    (5 : Nat) ∈ ({ blacklist := [5], nextJti := 0 } : TokenState).blacklist ∧
    logoutPost { blacklist := [5], nextJti := 0 } 0
        (fun s => if s = "tok"
          then some { jti := 5, userId := 1, tokenType := "refresh",
                      expiresAt := 100 }
          else none)
        (some "tok")
      = (logoutFailureReply, { blacklist := [5], nextJti := 0 }) := by
  have h1 := (logout_failure_is_generic { blacklist := [], nextJti := 0 } 0
    (fun s => if s = "tok"
      then some { jti := 5, userId := 1, tokenType := "refresh",
                  expiresAt := 100 }
      else none)
    (some "tok")).2.2.2 "tok"
    { jti := 5, userId := 1, tokenType := "refresh", expiresAt := 100 }
    rfl (by decide) (by decide)
  have h2 := (logout_failure_is_generic { blacklist := [5], nextJti := 0 } 0
    (fun s => if s = "tok"
      then some { jti := 5, userId := 1, tokenType := "refresh",
                  expiresAt := 100 }
      else none)
    (some "tok")).2.2.1 "tok"
    { jti := 5, userId := 1, tokenType := "refresh", expiresAt := 100 }
    TokenFailure.blacklisted rfl (by decide) (by decide)
  exact ⟨h1.1, h1.2, h2⟩

/-- C3: when an event-creation request carries an image file and the
upload to the image host fails after the event row was created, the
created event is deleted again (the resulting table equals the original
one) and the operation fails with a ValidationError keyed imagem whose
message embeds the upstream error. -/
theorem create_image_upload_failure_compensates
    (upload : String → String → Except String String)
    (slugify : String → String) (now : Int) (db : List Evento)
    (attrs : EventoAttrs) (f e : String)
    (hval : eventoRunValidation true now attrs = .ok attrs)
    (hup : upload f ("cosplay_angola/eventos/" ++ slugify attrs.titulo)
      = .error e) :
    eventoCreateFlow upload slugify now db attrs (some f)
      = (.error [("imagem", "Erro ao fazer upload da imagem: " ++ e)], db) := by
  unfold eventoCreateFlow
  rw [hval]
  unfold eventoSerializerCreate
  simp only
  rw [hup]
  rfl

/-- Witness for C3 at a concrete payload and a failing upload. -/
theorem create_image_upload_failure_compensates_witness :
    eventoCreateFlow (fun _ _ => .error "falha no upstream") (fun s => s)
        0 []
        { titulo := "Anima", dataInicio := 10, dataFim := none,
          localName := none, categoriaId := 0, statusName := "publicado",
          imagemDestaque := none }
        (some "img.png")
      = (.error [("imagem",
            "Erro ao fazer upload da imagem: falha no upstream")], []) := by
  have h := create_image_upload_failure_compensates
    (fun _ _ => .error "falha no upstream") (fun s => s) 0 []
    { titulo := "Anima", dataInicio := 10, dataFim := none,
      localName := none, categoriaId := 0, statusName := "publicado",
      imagemDestaque := none }
    "img.png" "falha no upstream" (by rfl) (by rfl)
  simpa using h

/-- C10: an event update carrying a new image file first persists all
non-image field changes (super().update saves the instance), and only
then attempts the upload; when the upload fails the operation raises a
ValidationError keyed imagem, but the table keeps the already-saved
field changes - there is no rollback or compensating deletion, unlike
creation. -/
theorem update_not_atomic_on_upload_failure
    (upload : String → String → Except String String)
    (db : List Evento) (inst : Evento) (attrs : EventoAttrs) (f e : String)
    (hup : upload f ("cosplay_angola/eventos/" ++ (applyAttrs inst attrs).slug)
      = .error e) :
    eventoSerializerUpdate upload db inst attrs (some f)
      = (.error [("imagem", "Erro ao fazer upload da imagem: " ++ e)],
         replaceEvento db (applyAttrs inst attrs)) := by
  unfold eventoSerializerUpdate
  simp only
  rw [hup]
  rfl

/-- Witness for C10: a concrete event whose title and end date are
changed by the update; the failing upload leaves those changes saved. -/
theorem update_not_atomic_on_upload_failure_witness :
    eventoSerializerUpdate (fun _ _ => .error "host fora do ar")
        [{ id := 3, titulo := "Velho", slug := "velho",
           dataInicio := 5, dataFim := none, localName := none,
           categoriaId := 1, statusName := "rascunho",
           imagemDestaque := some "http://old" }]
        { id := 3, titulo := "Velho", slug := "velho",
          dataInicio := 5, dataFim := none, localName := none,
          categoriaId := 1, statusName := "rascunho",
          imagemDestaque := some "http://old" }
        { titulo := "Novo", dataInicio := 5, dataFim := some 6,
          localName := none, categoriaId := 1, statusName := "publicado",
          imagemDestaque := some "http://old" }
        (some "img.png")
      = (.error [("imagem", "Erro ao fazer upload da imagem: host fora do ar")],
         [{ id := 3, titulo := "Novo", slug := "velho",
            dataInicio := 5, dataFim := some 6, localName := none,
            categoriaId := 1, statusName := "publicado",
            imagemDestaque := some "http://old" }]) := by
  have h := update_not_atomic_on_upload_failure
    (fun _ _ => .error "host fora do ar")
    [{ id := 3, titulo := "Velho", slug := "velho",
       dataInicio := 5, dataFim := none, localName := none,
       categoriaId := 1, statusName := "rascunho",
       imagemDestaque := some "http://old" }]
    { id := 3, titulo := "Velho", slug := "velho",
      dataInicio := 5, dataFim := none, localName := none,
      categoriaId := 1, statusName := "rascunho",
      imagemDestaque := some "http://old" }
    { titulo := "Novo", dataInicio := 5, dataFim := some 6,
      localName := none, categoriaId := 1, statusName := "publicado",
      imagemDestaque := some "http://old" }
    "img.png" "host fora do ar" (by rfl)
  simpa [applyAttrs, replaceEvento] using h

/-- Counterexample to C4 as stated: a registration payload whose email
is already taken and whose passwords do not match is rejected with a
ValidationError keyed only on email - the password key is absent,
because DRF raises the collected field-level errors before the
cross-field password comparison ever runs. -/
theorem register_mismatch_missing_password_key :
    ({ username := "novo", email := "dup@example.com",
       password := "SenhaForte123", password2 := "Outra123",
       firstName := "", lastName := "" } : RegisterPayload).password
      ≠ ({ username := "novo", email := "dup@example.com",
           password := "SenhaForte123", password2 := "Outra123",
           firstName := "", lastName := "" } : RegisterPayload).password2 ∧
    registerRunValidation [] ["dup@example.com"] (fun _ => [])
        { username := "novo", email := "dup@example.com",
          password := "SenhaForte123", password2 := "Outra123",
          firstName := "", lastName := "" }
      = .error [("email", "This field must be unique.")] ∧
    "password" ∉
      ([("email", "This field must be unique.")] : FieldErrors).map Prod.fst := by
  refine ⟨by decide, by rfl, by decide⟩

/-- C4 (amended): for every registration payload in which password is
different from password2 AND whose other field-level checks pass (unused
username and email), the result is a ValidationError carrying the key
password, regardless of how strong the password is (for any outcome of
the strength validators); when another field-level check fails, only the
collected field errors are reported and the password-mismatch key may be
absent. -/
theorem register_mismatch_keyed_password
    (existingUsernames existingEmails : List String)
    (passwordMessages : RegisterPayload → List String) (p : RegisterPayload)
    (hu : p.username ∉ existingUsernames)
    (he : p.email ∉ existingEmails)
    (hne : p.password ≠ p.password2) :
    ∃ errs, registerRunValidation existingUsernames existingEmails
        passwordMessages p = .error errs
      ∧ "password" ∈ errs.map Prod.fst := by
  unfold registerRunValidation registerFieldErrors
  simp only [hu, he, if_neg, ite_false, List.nil_append]
  cases hm : passwordMessages p with
  | nil =>
    simp only [List.map_nil]
    refine ⟨[("password", "Os campos de senha não coincidem.")], ?_, by simp⟩
    rw [if_neg (by simp), if_pos hne]
  | cons m ms =>
    refine ⟨("password", m) :: ms.map (fun x => ("password", x)), ?_, by simp⟩
    rw [if_pos (by simp)]
    simp

/-- Witness for the amended C4 at a concrete payload with a weak,
mismatched password. -/
theorem register_mismatch_keyed_password_witness :
    ∃ errs, registerRunValidation [] [] (fun _ => ["too short"])
        { username := "novo", email := "a@b.com",
          password := "x", password2 := "y",
          firstName := "", lastName := "" }
      = .error errs
      ∧ "password" ∈ errs.map Prod.fst :=
  register_mismatch_keyed_password [] [] (fun _ => ["too short"])
    { username := "novo", email := "a@b.com",
      password := "x", password2 := "y",
      firstName := "", lastName := "" }
    (by decide) (by decide) (by decide)

/-- C5: every valid registration payload (unused username and email, a
password accepted by the strength validators, matching confirmation) is
answered 201 with the public account projection carrying exactly the
fields id, username, email, first_name, last_name, is_superuser and
is_staff plus the success message; the projection carries no password or
password-hash field, and the stored row keeps only hash(password). -/
theorem register_success_projection
    (hash : String → String)
    (existingUsernames existingEmails : List String)
    (passwordMessages : RegisterPayload → List String)
    (db : List StoredUser) (p : RegisterPayload)
    (hu : p.username ∉ existingUsernames)
    (he : p.email ∉ existingEmails)
    (hpm : passwordMessages p = [])
    (hpw : p.password = p.password2) :
    registerViewCreate hash existingUsernames existingEmails
        passwordMessages db p
      = ({ statusCode := 201,
           userData := userSerializerData (createUser hash db.length p),
           message := "Usuário registrado com sucesso! Faça loginpara obter tokens.",
           errors := [] }, db ++ [createUser hash db.length p]) ∧
    (userSerializerData (createUser hash db.length p)).map Prod.fst
      = ["id", "username", "email", "first_name", "last_name",
         "is_superuser", "is_staff"] ∧
    "password" ∉ (userSerializerData (createUser hash db.length p)).map Prod.fst ∧
    "password_hash" ∉ (userSerializerData (createUser hash db.length p)).map Prod.fst ∧
    (createUser hash db.length p).passwordHash = hash p.password := by
  have hok : registerRunValidation existingUsernames existingEmails
      passwordMessages p = .ok p := by
    unfold registerRunValidation registerFieldErrors
    rw [if_neg hu, if_neg he, hpm]
    simp only [List.map_nil, List.nil_append, List.append_nil]
    rw [if_neg (by simp), if_neg (by simp [hpw])]
  refine ⟨?_, by simp [userSerializerData, createUser], ?_, ?_, rfl⟩
  · unfold registerViewCreate
    rw [hok]
  · simp [userSerializerData, createUser]
  · simp [userSerializerData, createUser]

/-- Witness for C5 at a concrete payload and hashing function. -/
theorem register_success_projection_witness :
    registerViewCreate (fun s => "pbkdf2$" ++ s) [] [] (fun _ => []) []
        { username := "ana", email := "ana@example.com",
          password := "SenhaForte123", password2 := "SenhaForte123",
          firstName := "Ana", lastName := "Silva" }
      = ({ statusCode := 201,
           userData := userSerializerData
             (createUser (fun s => "pbkdf2$" ++ s) 0
               { username := "ana", email := "ana@example.com",
                 password := "SenhaForte123", password2 := "SenhaForte123",
                 firstName := "Ana", lastName := "Silva" }),
           message := "Usuário registrado com sucesso! Faça loginpara obter tokens.",
           errors := [] },
         [createUser (fun s => "pbkdf2$" ++ s) 0
           { username := "ana", email := "ana@example.com",
             password := "SenhaForte123", password2 := "SenhaForte123",
             firstName := "Ana", lastName := "Silva" }]) ∧
    (userSerializerData (createUser (fun s => "pbkdf2$" ++ s) 0
        { username := "ana", email := "ana@example.com",
          password := "SenhaForte123", password2 := "SenhaForte123",
          firstName := "Ana", lastName := "Silva" })).map Prod.fst
      = ["id", "username", "email", "first_name", "last_name",
         "is_superuser", "is_staff"] ∧
    "password" ∉ (userSerializerData (createUser (fun s => "pbkdf2$" ++ s) 0
        { username := "ana", email := "ana@example.com",
          password := "SenhaForte123", password2 := "SenhaForte123",
          firstName := "Ana", lastName := "Silva" })).map Prod.fst ∧
    "password_hash" ∉ (userSerializerData (createUser (fun s => "pbkdf2$" ++ s) 0
        { username := "ana", email := "ana@example.com",
          password := "SenhaForte123", password2 := "SenhaForte123",
          firstName := "Ana", lastName := "Silva" })).map Prod.fst ∧
    (createUser (fun s => "pbkdf2$" ++ s) 0
        { username := "ana", email := "ana@example.com",
          password := "SenhaForte123", password2 := "SenhaForte123",
          firstName := "Ana", lastName := "Silva" }).passwordHash
      = (fun s => "pbkdf2$" ++ s) "SenhaForte123" := by
  have h := register_success_projection (fun s => "pbkdf2$" ++ s) [] []
    (fun _ => []) []
    { username := "ana", email := "ana@example.com",
      password := "SenhaForte123", password2 := "SenhaForte123",
      firstName := "Ana", lastName := "Silva" }
    (by decide) (by decide) (by rfl) (by rfl)
  simpa using h

/-- C6: under IsSuperUserOrReadOnly (the permission of the event
endpoints) a safe method (GET, HEAD, OPTIONS) is permitted for any
actor, and a write method is permitted exactly when the actor exists,
is authenticated and has the superuser flag; a request by an actor
without credentials is dispatched to 401 without the handler (hence any
mutation) running when the method is unsafe, while the same anonymous
actor's list GET is answered 200 with the table unchanged. -/
theorem anyone_read_superuser_write
    (m : HttpMethod) (user : Option RequestUser) (b : Bool)
    (db : List Evento) (handler : List Evento → Nat × List Evento) :
    (isSuperUserOrReadOnly m user = true ↔
      (m.isSafeMethod = true ∨
        ∃ u, user = some u ∧ u.isAuthenticated = true
          ∧ u.isSuperuser = true)) ∧
    eventoDispatch m none db handler
      = (if m.isSafeMethod then handler db else (401, db)) ∧
    eventoDispatch m (some { isAuthenticated := false, isSuperuser := b })
        db handler
      = (if m.isSafeMethod then handler db else (401, db)) ∧
    eventoDispatch .GET none db eventoListHandler = (200, db) := by
  refine ⟨?_, ?_, ?_, rfl⟩
  · cases hs : m.isSafeMethod with
    | true => simp [isSuperUserOrReadOnly, hs]
    | false =>
      cases user with
      | none => simp [isSuperUserOrReadOnly, hs]
      | some u => simp [isSuperUserOrReadOnly, hs, Bool.and_eq_true, and_comm]
  · cases hs : m.isSafeMethod <;>
      simp [eventoDispatch, isSuperUserOrReadOnly, requestIsAuthenticated, hs]
  · cases hs : m.isSafeMethod <;>
      simp [eventoDispatch, isSuperUserOrReadOnly, requestIsAuthenticated, hs]

/-- C7: under IsOwnerOrSuperUser with a non-superuser actor, the target
object's owner is resolved by checking, in order, the user, then owner,
then author association; access is granted exactly when the resolved
owner equals the actor, an object with none of the three associations is
denied, and the check is a total function (the source never raises). -/
theorem owner_or_superuser_object_check
    (actor : ActorUser) (obj : OwnedObject)
    (hns : actor.isSuperuser = false) :
    (isOwnerOrSuperUser actor obj = true ↔ resolveOwner obj = some actor.id) ∧
    (∀ uid, obj.user = some uid → resolveOwner obj = some uid) ∧
    (obj.user = none →
      ∀ uid, obj.owner = some uid → resolveOwner obj = some uid) ∧
    (obj.user = none → obj.owner = none → resolveOwner obj = obj.author) ∧
    (obj.user = none → obj.owner = none → obj.author = none →
      isOwnerOrSuperUser actor obj = false) := by
  refine ⟨?_, ?_, ?_, ?_, ?_⟩
  · simp [isOwnerOrSuperUser, hns]
  · intro uid h
    simp [resolveOwner, h, Option.orElse]
  · intro h uid h2
    simp [resolveOwner, h, h2, Option.orElse]
  · intro h h2
    simp [resolveOwner, h, h2, Option.orElse]
  · intro h h2 h3
    simp [isOwnerOrSuperUser, hns, resolveOwner, h, h2, h3, Option.orElse]

/-- Witness for C7: a non-superuser actor, an object owned through the
owner association (its user association is null), and the denial of an
object with no association at all. -/
theorem owner_or_superuser_object_check_witness :
    (isOwnerOrSuperUser { id := 3, isSuperuser := false }
        { user := none, owner := some 3, author := none } = true ↔
      resolveOwner { user := none, owner := some 3, author := none }
        = some ({ id := 3, isSuperuser := false } : ActorUser).id) ∧
    (∀ uid, ({ user := none, owner := some 3, author := none }
        : OwnedObject).user = some uid →
      resolveOwner { user := none, owner := some 3, author := none }
        = some uid) ∧
    (({ user := none, owner := some 3, author := none }
        : OwnedObject).user = none →
      ∀ uid, ({ user := none, owner := some 3, author := none }
          : OwnedObject).owner = some uid →
        resolveOwner { user := none, owner := some 3, author := none }
          = some uid) ∧
    (({ user := none, owner := some 3, author := none }
        : OwnedObject).user = none →
      ({ user := none, owner := some 3, author := none }
        : OwnedObject).owner = none →
      resolveOwner { user := none, owner := some 3, author := none }
        = ({ user := none, owner := some 3, author := none }
            : OwnedObject).author) ∧
    (({ user := none, owner := some 3, author := none }
        : OwnedObject).user = none →
      ({ user := none, owner := some 3, author := none }
        : OwnedObject).owner = none →
      ({ user := none, owner := some 3, author := none }
        : OwnedObject).author = none →
      isOwnerOrSuperUser { id := 3, isSuperuser := false }
        { user := none, owner := some 3, author := none } = false) :=
  owner_or_superuser_object_check { id := 3, isSuperuser := false }
    { user := none, owner := some 3, author := none } rfl

/-- On creation, a start date in the past fails the field-level
validator with the data_inicio key. -/
lemma validateDataInicio_past (now value : Int) (h : value < now) :
    validateDataInicio true now value
      = [("data_inicio", "Data de início não pode ser no passado.")] := by
  unfold validateDataInicio
  rw [if_pos ⟨rfl, h⟩]

/-- On creation, a start date not in the past passes the field-level
validator. -/
lemma validateDataInicio_future (now value : Int) (h : ¬ value < now) :
    validateDataInicio true now value = [] := by
  unfold validateDataInicio
  rw [if_neg fun hc => h hc.2]

/-- The cross-field validate method keys data_fim when the end date
precedes the start date. -/
lemma eventoCrossValidate_endBeforeStart (attrs : EventoAttrs) (f : Int)
    (hf : attrs.dataFim = some f) (hlt : f < attrs.dataInicio) :
    eventoCrossValidate attrs
      = [("data_fim",
          "Data de término deve ser posterior à data de início.")] := by
  unfold eventoCrossValidate
  simp only [hf]
  rw [if_pos hlt]

/-- Inversion of a successful event validation: the attributes are
returned unchanged and the cross-field validation produced no error. -/
lemma eventoRunValidation_ok_inv (now : Int) (attrs a : EventoAttrs)
    (h : eventoRunValidation true now attrs = .ok a) :
    a = attrs ∧ eventoCrossValidate attrs = [] := by
  unfold eventoRunValidation at h
  split_ifs at h with h1 h2
  obtain rfl := Except.ok.inj h
  exact ⟨rfl, not_not.mp h2⟩

/-- A successfully created event carries the dates of its validated
attributes, whatever the image upload did. -/
lemma eventoSerializerCreate_ok_dates
    (upload : String → String → Except String String)
    (slugify : String → String) (db : List Evento) (a : EventoAttrs)
    (imagemFile : Option String) (ev : Evento) (db2 : List Evento)
    (h : eventoSerializerCreate upload slugify db a imagemFile
      = (.ok ev, db2)) :
    ev.dataFim = a.dataFim ∧ ev.dataInicio = a.dataInicio := by
  cases imagemFile with
  | none =>
    simp only [eventoSerializerCreate] at h
    have hev := Except.ok.inj (congrArg Prod.fst h)
    rw [← hev]
    exact ⟨rfl, rfl⟩
  | some f2 =>
    simp only [eventoSerializerCreate] at h
    cases hup : upload f2 ("cosplay_angola/eventos/" ++ slugify a.titulo) with
    | ok url =>
      rw [hup] at h
      have hev := Except.ok.inj (congrArg Prod.fst h)
      rw [← hev]
      exact ⟨rfl, rfl⟩
    | error e =>
      rw [hup] at h
      simp at h

/-- Inversion of a successful create flow: validation passed and the
stored event carries the validated dates. -/
lemma eventoCreateFlow_ok_inv
    (upload : String → String → Except String String)
    (slugify : String → String) (now : Int) (db : List Evento)
    (attrs2 : EventoAttrs) (imagemFile2 : Option String)
    (ev : Evento) (db2 : List Evento)
    (h : eventoCreateFlow upload slugify now db attrs2 imagemFile2
      = (.ok ev, db2)) :
    eventoCrossValidate attrs2 = [] ∧
    ev.dataFim = attrs2.dataFim ∧ ev.dataInicio = attrs2.dataInicio := by
  unfold eventoCreateFlow at h
  cases hval : eventoRunValidation true now attrs2 with
  | error errs => rw [hval] at h; simp at h
  | ok a =>
    rw [hval] at h
    simp only [] at h
    obtain ⟨ha, hcross⟩ := eventoRunValidation_ok_inv now attrs2 a hval
    subst ha
    exact ⟨hcross, eventoSerializerCreate_ok_dates _ _ _ _ _ _ _ h⟩

/-- Counterexample to C8 as stated: a creation payload whose end date
precedes its start date AND whose start date lies in the past is
rejected with a ValidationError keyed data_inicio, not data_fim - the
field-level start-date validator runs (and raises) before the
cross-field validate method that keys data_fim. -/
theorem evento_end_before_start_keyed_counterexample :
    (({ titulo := "X", dataInicio := 50, dataFim := some 40,
        localName := none, categoriaId := 0, statusName := "rascunho",
        imagemDestaque := none } : EventoAttrs).dataFim = some 40
      ∧ (40 : Int) < 50) ∧
    eventoRunValidation true 100
        { titulo := "X", dataInicio := 50, dataFim := some 40,
          localName := none, categoriaId := 0, statusName := "rascunho",
          imagemDestaque := none }
      = .error [("data_inicio", "Data de início não pode ser no passado.")] ∧
    "data_fim" ∉
      ([("data_inicio", "Data de início não pode ser no passado.")]
        : FieldErrors).map Prod.fst := by
  refine ⟨⟨rfl, by decide⟩, by rfl, by decide⟩

/-- C8 (amended): every event-creation payload with an end date set and
endAt earlier than startAt is rejected and stores nothing; the
ValidationError is keyed data_fim whenever the payload passes the
field-level start-date check (start not in the past), and is keyed
data_inicio instead when the start date is in the past; consequently
every stored event with an end date satisfies endAt greater or equal
startAt. -/
theorem evento_end_before_start_rejected
    (upload : String → String → Except String String)
    (slugify : String → String) (now : Int) (db : List Evento)
    (attrs : EventoAttrs) (f : Int) (imagemFile : Option String)
    (hf : attrs.dataFim = some f) (hlt : f < attrs.dataInicio) :
    ((eventoCreateFlow upload slugify now db attrs imagemFile).1.isOk = false
      ∧ (eventoCreateFlow upload slugify now db attrs imagemFile).2 = db) ∧
    (¬ attrs.dataInicio < now →
      eventoRunValidation true now attrs
        = .error [("data_fim",
            "Data de término deve ser posterior à data de início.")]) ∧
    (attrs.dataInicio < now →
      eventoRunValidation true now attrs
        = .error [("data_inicio",
            "Data de início não pode ser no passado.")]) ∧
    (∀ attrs2 imagemFile2 ev db2,
      eventoCreateFlow upload slugify now db attrs2 imagemFile2
        = (.ok ev, db2) →
      ∀ g, ev.dataFim = some g → ev.dataInicio ≤ g) := by
  have hpast : attrs.dataInicio < now →
      eventoRunValidation true now attrs
        = .error [("data_inicio",
            "Data de início não pode ser no passado.")] := by
    intro hp
    unfold eventoRunValidation
    rw [validateDataInicio_past now attrs.dataInicio hp]
    rw [if_pos (by simp)]
  have hnotpast : ¬ attrs.dataInicio < now →
      eventoRunValidation true now attrs
        = .error [("data_fim",
            "Data de término deve ser posterior à data de início.")] := by
    intro hp
    unfold eventoRunValidation
    rw [validateDataInicio_future now attrs.dataInicio hp]
    rw [if_neg (by simp)]
    rw [eventoCrossValidate_endBeforeStart attrs f hf hlt]
    rw [if_pos (by simp)]
  have herr : ∃ errs, eventoRunValidation true now attrs = .error errs := by
    by_cases hp : attrs.dataInicio < now
    · exact ⟨_, hpast hp⟩
    · exact ⟨_, hnotpast hp⟩
  obtain ⟨errs, herrs⟩ := herr
  refine ⟨?_, hnotpast, hpast, ?_⟩
  · unfold eventoCreateFlow
    rw [herrs]
    exact ⟨rfl, rfl⟩
  · intro attrs2 imagemFile2 ev db2 h g hg
    obtain ⟨hcross, hfim, hini⟩ :=
      eventoCreateFlow_ok_inv upload slugify now db attrs2 imagemFile2
        ev db2 h
    have hfim2 : attrs2.dataFim = some g := by rw [← hfim, hg]
    have hnl : ¬ g < attrs2.dataInicio := by
      intro hglt
      rw [eventoCrossValidate_endBeforeStart attrs2 g hfim2 hglt] at hcross
      cases hcross
    rw [hini]
    omega

/-- Witness for the amended C8 at a concrete payload (start in the
future, end before start). -/
theorem evento_end_before_start_rejected_witness :
    ((eventoCreateFlow (fun _ _ => .error "e") (fun s => s) 0 []
        { titulo := "X", dataInicio := 100, dataFim := some 50,
          localName := none, categoriaId := 0, statusName := "rascunho",
          imagemDestaque := none } none).1.isOk = false
      ∧ (eventoCreateFlow (fun _ _ => .error "e") (fun s => s) 0 []
        { titulo := "X", dataInicio := 100, dataFim := some 50,
          localName := none, categoriaId := 0, statusName := "rascunho",
          imagemDestaque := none } none).2 = []) ∧
    (¬ ({ titulo := "X", dataInicio := 100, dataFim := some 50,
          localName := none, categoriaId := 0, statusName := "rascunho",
          imagemDestaque := none } : EventoAttrs).dataInicio < 0 →
      eventoRunValidation true 0
        { titulo := "X", dataInicio := 100, dataFim := some 50,
          localName := none, categoriaId := 0, statusName := "rascunho",
          imagemDestaque := none }
        = .error [("data_fim",
            "Data de término deve ser posterior à data de início.")]) ∧
    (({ titulo := "X", dataInicio := 100, dataFim := some 50,
        localName := none, categoriaId := 0, statusName := "rascunho",
        imagemDestaque := none } : EventoAttrs).dataInicio < 0 →
      eventoRunValidation true 0
        { titulo := "X", dataInicio := 100, dataFim := some 50,
          localName := none, categoriaId := 0, statusName := "rascunho",
          imagemDestaque := none }
        = .error [("data_inicio",
            "Data de início não pode ser no passado.")]) ∧
    (∀ attrs2 imagemFile2 ev db2,
      eventoCreateFlow (fun _ _ => .error "e") (fun s => s) 0 []
          attrs2 imagemFile2
        = (.ok ev, db2) →
      ∀ g, ev.dataFim = some g → ev.dataInicio ≤ g) :=
  evento_end_before_start_rejected (fun _ _ => .error "e") (fun s => s) 0 []
    { titulo := "X", dataInicio := 100, dataFim := some 50,
      localName := none, categoriaId := 0, statusName := "rascunho",
      imagemDestaque := none }
    50 none rfl (by decide)

/-- The effective page size is at least 1 and capped at max_page_size
100. -/
lemma getPageSize_bounds (param : Option Nat) :
    1 ≤ getPageSize param ∧ getPageSize param ≤ 100 := by
  rcases param with _ | n
  · decide
  · unfold getPageSize
    by_cases h : n = 0 <;> simp [h] <;> omega

/-- num_pages pages of size per cover the whole collection. -/
lemma le_numPages_mul (count per : Nat) (hper : 0 < per) :
    count ≤ numPages count per * per := by
  unfold numPages
  rw [Nat.mul_comm]
  have h1 := Nat.div_add_mod (max 1 count + per - 1) per
  have h2 := Nat.mod_lt (max 1 count + per - 1) hper
  generalize ht : per * ((max 1 count + per - 1) / per) = t at h1 ⊢
  generalize hm : (max 1 count + per - 1) % per = m at h1 h2
  omega

/-- django num_pages equals the ceiling of count/per, floored below at
one page. -/
lemma numPages_eq_max (count per : Nat) (hper : 0 < per) :
    numPages count per = max 1 (specCeil count per) := by
  unfold numPages specCeil
  rcases Nat.eq_zero_or_pos count with h | h
  · subst h
    have h1 : max 1 0 + per - 1 = per := by omega
    have h2 : (0 + per - 1) / per = 0 := Nat.div_eq_of_lt (by omega)
    rw [h1, h2, Nat.div_self hper]
    decide
  · have hmax : max 1 count = count := by omega
    have hone : 1 ≤ (count + per - 1) / per :=
      (Nat.one_le_div_iff hper).mpr (by omega)
    rw [hmax]
    omega

/-- The slices of size per starting at 0, per, 2*per, ... partition the
list: their lengths sum to its length, as soon as enough pages are
taken. -/
lemma sum_chunk_lengths {α : Type} (per : Nat) :
    ∀ (n : Nat) (xs : List α), xs.length ≤ n * per →
    ((List.range n).map fun k => ((xs.drop (k * per)).take per).length).sum
      = xs.length := by
  intro n
  induction n with
  | zero =>
    intro xs h
    simp only [Nat.zero_mul, Nat.le_zero] at h
    simp [h]
  | succ n ih =>
    intro xs h
    rw [Nat.succ_mul] at h
    rw [List.range_succ_eq_map, List.map_cons, List.map_map, List.sum_cons]
    have e1 : (List.range n).map
        ((fun k => ((xs.drop (k * per)).take per).length) ∘ Nat.succ)
        = (List.range n).map
            (fun k => (((xs.drop per).drop (k * per)).take per).length) := by
      congr 1
      funext k
      simp only [Function.comp]
      rw [Nat.succ_mul, List.drop_drop, Nat.add_comm (k * per) per]
    have hlen : (xs.drop per).length ≤ n * per := by
      simp only [List.length_drop]
      exact Nat.sub_le_iff_le_add.mpr h
    rw [e1, ih (xs.drop per) hlen]
    simp only [Nat.zero_mul, List.drop_zero, List.length_take,
      List.length_drop]
    omega

/-- The k-th page (1-based) of a paginated list, for every valid page
number: the body carries count, total_pages, current_page, page_size,
the next/previous links and the slice of results. -/
lemma paginate_page {α : Type} (xs : List α) (param : Option Nat) (k : Nat)
    (hk : k < numPages xs.length (getPageSize param)) :
    paginate xs (k + 1) param = some
      { count := xs.length,
        totalPages := numPages xs.length (getPageSize param),
        currentPage := k + 1,
        pageSize := getPageSize param,
        nextLink := if k + 1 < numPages xs.length (getPageSize param)
          then some (k + 2) else none,
        previousLink := if 1 < k + 1 then some k else none,
        results := (xs.drop (k * getPageSize param)).take
          (getPageSize param) } := by
  unfold paginate
  rw [if_neg (by push_neg; exact ⟨by omega, by omega⟩)]
  simp only [Nat.add_sub_cancel]

/-- Counterexample to C9 as stated: over zero matching events the
endpoint serves one (empty) first page and reports total_pages 1, while
ceil(0/10) is 0, so total_pages differs from ceil(N/P) at N = 0. -/
theorem pagination_total_pages_counterexample :
    paginate ([] : List Nat) 1 none
      = some { count := 0, totalPages := 1, currentPage := 1,
               pageSize := 10, nextLink := none, previousLink := none,
               results := [] } ∧
    specCeil 0 (getPageSize none) = 0 ∧ (1 : Nat) ≠ 0 := by
  exact ⟨by rfl, by rfl, by decide⟩

/-- C9 (amended): the effective page size defaults to 10 and is
client-requestable up to the cap 100; for every paginated response over
N matching events, count equals N, total_pages equals max(1, ceil(N/P))
- which is ceil(N/P) whenever N is positive, while N = 0 yields a
single empty page - the result lengths over all pages sum to count, and
every page body carries count, total_pages, current_page, page_size and
the next/previous links. -/
theorem pagination_law_amended (xs : List Nat) (param : Option Nat) :
    (1 ≤ getPageSize param ∧ getPageSize param ≤ 100) ∧
    getPageSize none = 10 ∧
    ((pageChunks xs (getPageSize param)).map List.length).sum = xs.length ∧
    numPages xs.length (getPageSize param)
      = max 1 (specCeil xs.length (getPageSize param)) ∧
    (xs.length ≠ 0 →
      numPages xs.length (getPageSize param)
        = specCeil xs.length (getPageSize param)) ∧
    (∀ k, k < numPages xs.length (getPageSize param) →
      paginate xs (k + 1) param = some
        { count := xs.length,
          totalPages := numPages xs.length (getPageSize param),
          currentPage := k + 1,
          pageSize := getPageSize param,
          nextLink := if k + 1 < numPages xs.length (getPageSize param)
            then some (k + 2) else none,
          previousLink := if 1 < k + 1 then some k else none,
          results := (xs.drop (k * getPageSize param)).take
            (getPageSize param) }) := by
  have hb := getPageSize_bounds param
  refine ⟨hb, rfl, ?_, ?_, ?_, ?_⟩
  · unfold pageChunks
    rw [List.map_map]
    exact sum_chunk_lengths (getPageSize param) _ xs
      (le_numPages_mul xs.length (getPageSize param) (by omega))
  · exact numPages_eq_max xs.length (getPageSize param) (by omega)
  · intro hne
    have hm := numPages_eq_max xs.length (getPageSize param) (by omega)
    have hone : 1 ≤ specCeil xs.length (getPageSize param) := by
      unfold specCeil
      exact (Nat.one_le_div_iff (by omega)).mpr (by omega)
    omega
  · intro k hk
    exact paginate_page xs param k hk

/-- Witness for the amended C9 over three events with a requested page
size of two: two pages, the second holding the single remaining
element. -/
theorem pagination_law_amended_witness :
    (1 ≤ getPageSize (some 2) ∧ getPageSize (some 2) ≤ 100) ∧
    getPageSize none = 10 ∧
    ((pageChunks [1, 2, 3] (getPageSize (some 2))).map List.length).sum
      = ([1, 2, 3] : List Nat).length ∧
    numPages ([1, 2, 3] : List Nat).length (getPageSize (some 2))
      = max 1 (specCeil ([1, 2, 3] : List Nat).length (getPageSize (some 2))) ∧
    (([1, 2, 3] : List Nat).length ≠ 0 →
      numPages ([1, 2, 3] : List Nat).length (getPageSize (some 2))
        = specCeil ([1, 2, 3] : List Nat).length (getPageSize (some 2))) ∧
    (∀ k, k < numPages ([1, 2, 3] : List Nat).length (getPageSize (some 2)) →
      paginate [1, 2, 3] (k + 1) (some 2) = some
        { count := ([1, 2, 3] : List Nat).length,
          totalPages := numPages ([1, 2, 3] : List Nat).length
            (getPageSize (some 2)),
          currentPage := k + 1,
          pageSize := getPageSize (some 2),
          nextLink := if k + 1 < numPages ([1, 2, 3] : List Nat).length
              (getPageSize (some 2))
            then some (k + 2) else none,
          previousLink := if 1 < k + 1 then some k else none,
          results := (([1, 2, 3] : List Nat).drop
              (k * getPageSize (some 2))).take (getPageSize (some 2)) }) :=
  pagination_law_amended [1, 2, 3] (some 2)

end CosplayAngola
